import Mathlib

/-!
Verification development for the x402 URL shortener.

Shallow embedding of the core submission pipeline:
 - `ShortUrlGenerator` (short-url-generator.ts): random Base62 code generation
   and structural validity check,
 - `PaymentHandler.verifyPayment` (payment-handler.ts) with the configured
   `PAYMENT_REQUIREMENTS` (config/payment.ts),
 - `UrlValidator.validateUrl` (url-validator.ts),
 - `handleShortenUrl` (the submission coordinator route handler) together with
   `UrlStorageService.storeUrl` / `shortCodeExists` (url-storage.ts).

Randomness, the database and header decoding are externalized as explicit
arguments (byte lists, oracles `String -> Bool`, etc.); platform library
functions used by the source (JavaScript `parseInt`, regex tests on fixed
patterns, the WHATWG URL parser) are modelled by Lean functions faithful to
their behaviour on the inputs the validator can receive.
-/

namespace X402

/-! Short identifier generator (short-url-generator.ts) -/

/-- BASE62_CHARS of ShortUrlGenerator: the fixed 62-symbol alphabet. -/
def BASE62_CHARS : String :=
  "abcdefghijklmnopqrstuvwxyzABCDEFGHIJKLMNOPQRSTUVWXYZ0123456789"

/-- CODE_LENGTH of ShortUrlGenerator. -/
def CODE_LENGTH : Nat := 8

theorem BASE62_data_length : BASE62_CHARS.data.length = 62 := by decide

/-- One step of generateRandomCode: BASE62_CHARS[b % BASE62_CHARS.length],
the modulo reduction of one random byte to an alphabet symbol. -/
def base62Char (b : Nat) : Char :=
  BASE62_CHARS.data.get ⟨b % BASE62_CHARS.length, by
    rw [BASE62_data_length, show BASE62_CHARS.length = 62 from by decide]
    omega⟩

/-- generateRandomCode of ShortUrlGenerator: maps each random byte drawn from
the platform entropy source (the `bytes` argument, always CODE_LENGTH bytes
in the source) to one alphabet symbol. -/
def generateRandomCode (bytes : List Nat) : String :=
  String.mk (bytes.map base62Char)

/-- isValidShortCode of ShortUrlGenerator: length check followed by the
character-membership loop (JS String.includes on the alphabet). -/
def isValidShortCode (code : String) : Bool :=
  if code.length ≠ CODE_LENGTH then false
  else code.data.all (fun c => BASE62_CHARS.data.contains c)

/-! Payment verifier (payment-handler.ts, config/payment.ts lines 48-106) -/

/-- PAYMENT_REQUIREMENTS.network from config/payment.ts. -/
def REQUIRED_NETWORK : String := "base-sepolia"

/-- USDC_CONTRACT_ADDRESS from config/payment.ts (PAYMENT_REQUIREMENTS.asset). -/
def USDC_CONTRACT_ADDRESS : String := "0x036CbD53842c5426634e7929541eC2318f3dCF7e"

/-- PAYMENT_REQUIREMENTS.minAmountRequired (atomic units, 0.001 USDC). -/
def minAmountRequired : String := "1000"

/-- PAYMENT_REQUIREMENTS.maxAmountRequired (atomic units, 0.01 USDC). -/
def maxAmountRequired : String := "10000"

/-- Numeric value of a list of decimal digit characters. -/
def digitsVal (l : List Char) : Nat :=
  l.foldl (fun acc c => acc * 10 + (c.toNat - '0'.toNat)) 0

/-- Model of JavaScript parseInt(s, 10): skip leading whitespace, optional
sign, then the longest prefix of decimal digits; `none` models NaN (no
digits found). -/
def jsParseInt (s : String) : Option Int :=
  let l := s.data.dropWhile (fun c => c.isWhitespace)
  match l with
  | '-' :: rest =>
    let ds := rest.takeWhile (fun c => c.isDigit)
    if ds.isEmpty then none else some (-(digitsVal ds : Int))
  | '+' :: rest =>
    let ds := rest.takeWhile (fun c => c.isDigit)
    if ds.isEmpty then none else some (digitsVal ds : Int)
  | rest =>
    let ds := rest.takeWhile (fun c => c.isDigit)
    if ds.isEmpty then none else some (digitsVal ds : Int)

/-- JavaScript `<` where either operand may be NaN: any comparison against
NaN yields false. -/
def jsLt (a b : Option Int) : Bool :=
  match a, b with
  | some x, some y => decide (x < y)
  | _, _ => false

/-- JavaScript `>` where either operand may be NaN. -/
def jsGt (a b : Option Int) : Bool :=
  match a, b with
  | some x, some y => decide (y < x)
  | _, _ => false

/-- ASCII hex digit, as matched by the character class [a-fA-F0-9]. -/
def isHexDigitChar (c : Char) : Bool :=
  (decide ('0' ≤ c) && decide (c ≤ '9')) ||
  (decide ('a' ≤ c) && decide (c ≤ 'f')) ||
  (decide ('A' ≤ c) && decide (c ≤ 'F'))

/-- Model of the regex test /^0x[a-fA-F0-9]{64}$/ on transaction hashes. -/
def isTxHashFormat (s : String) : Bool :=
  match s.data with
  | '0' :: 'x' :: rest => rest.length == 64 && rest.all isHexDigitChar
  | _ => false

/-- Model of the regex test /^0x[a-fA-F0-9]{40}$/ on creator addresses. -/
def isCreatorAddressFormat (s : String) : Bool :=
  match s.data with
  | '0' :: 'x' :: rest => rest.length == 40 && rest.all isHexDigitChar
  | _ => false

/-- Payment fields destructured from the x402 payment data object
(PaymentHandler.verifyPayment). All five are strings in the source interface. -/
structure PaymentClaim where
  txHash : String
  creatorAddress : String
  amount : String
  asset : String
  network : String
  deriving DecidableEq

/-- PaymentData of payment-handler.ts (timestamp from Date.now()). -/
structure PaymentData where
  txHash : String
  creatorAddress : String
  amount : String
  asset : String
  network : String
  timestamp : Nat
  deriving DecidableEq

/-- Failure return sites of PaymentHandler.verifyPayment, one constructor per
distinct error message of the source (the source distinguishes failures only
by the error message text). -/
inductive VerifyReason where
  | noPaymentData
  | missingFields
  | invalidNetwork
  | invalidAsset
  | amountTooLow
  | amountTooHigh
  | invalidTxHashFormat
  | invalidCreatorAddressFormat
  deriving DecidableEq

/-- PaymentVerificationResult of payment-handler.ts; `reason` stands for the
error-message field of the corresponding failure return. -/
structure PaymentVerificationResult where
  isValid : Bool
  reason : Option VerifyReason
  paymentData : Option PaymentData
  deriving DecidableEq

/-- verifyPayment of PaymentHandler (payment-handler.ts). A JS falsy test on
a string field is the empty-string test; `none` for the whole object models
a null/undefined paymentData; `now` is Date.now() at the success return. -/
def verifyPayment (p : Option PaymentClaim) (now : Nat) :
    PaymentVerificationResult :=
  match p with
  | none => ⟨false, some .noPaymentData, none⟩
  | some c =>
    if c.txHash = "" ∨ c.creatorAddress = "" ∨ c.amount = "" ∨
        c.asset = "" ∨ c.network = "" then
      ⟨false, some .missingFields, none⟩
    else if c.network ≠ REQUIRED_NETWORK then
      ⟨false, some .invalidNetwork, none⟩
    else if c.asset.toLower ≠ USDC_CONTRACT_ADDRESS.toLower then
      ⟨false, some .invalidAsset, none⟩
    else
      let paymentAmount := jsParseInt c.amount
      let minAmount := jsParseInt minAmountRequired
      let maxAmount := jsParseInt maxAmountRequired
      if jsLt paymentAmount minAmount then
        ⟨false, some .amountTooLow, none⟩
      else if jsGt paymentAmount maxAmount then
        ⟨false, some .amountTooHigh, none⟩
      else if !isTxHashFormat c.txHash then
        ⟨false, some .invalidTxHashFormat, none⟩
      else if !isCreatorAddressFormat c.creatorAddress then
        ⟨false, some .invalidCreatorAddressFormat, none⟩
      else
        ⟨true, none, some ⟨c.txHash, c.creatorAddress, c.amount, c.asset,
          c.network, now⟩⟩

/-! URL validator (url-validator.ts) -/

/-- MAX_URL_LENGTH of UrlValidator. -/
def MAX_URL_LENGTH : Nat := 2048

/-- ALLOWED_PROTOCOLS of UrlValidator. -/
def ALLOWED_PROTOCOLS : List String := ["http:", "https:"]

/-- BLOCKED_HOSTNAMES of UrlValidator. -/
def BLOCKED_HOSTNAMES : List String := ["localhost", "0.0.0.0", "::1", "::"]

/-- SHORTENER_DOMAINS of UrlValidator. -/
def SHORTENER_DOMAINS : List String :=
  ["bit.ly", "tinyurl.com", "short.link", "ow.ly", "t.co", "goo.gl", "is.gd",
   "buff.ly", "adf.ly"]

/-- Lowercasing as performed by JS toLowerCase on the hostnames considered
(ASCII). -/
def strToLower (s : String) : String := String.mk (s.data.map Char.toLower)

/-- Prefix test between strings, realized on the character lists; model of
an anchored regex prefix and of JS String.startsWith. -/
def strStartsWith (p s : String) : Bool := p.data.isPrefixOf s.data

/-- Suffix test between strings; model of JS String.endsWith. -/
def strEndsWith (p s : String) : Bool := p.data.isSuffixOf s.data

/-- Two-digit decimal strings 16 to 31: the alternation (1[6-9]|2[0-9]|3[0-1])
of the 172.16.0.0/12 pattern in BLOCKED_PATTERNS. -/
def oct172 : List String :=
  ["16", "17", "18", "19", "20", "21", "22", "23", "24", "25", "26", "27",
   "28", "29", "30", "31"]

/-- Model of the BLOCKED_PATTERNS regex list of UrlValidator: every pattern
is anchored at the start, so each one matches the hostname iff the hostname
starts with the corresponding textual prefix. -/
def matchesBlockedPatterns (hostname : String) : Bool :=
  strStartsWith "127." hostname || strStartsWith "10." hostname ||
  oct172.any (fun t => strStartsWith ("172." ++ t ++ ".") hostname) ||
  strStartsWith "192.168." hostname || strStartsWith "169.254." hostname ||
  strStartsWith "0." hostname || strStartsWith "224." hostname ||
  strStartsWith "240." hostname

/-- isPrivateOrLocalIP of UrlValidator: the IPv4 pattern loop followed by the
four IPv6 startsWith checks. -/
def isPrivateOrLocalIP (hostname : String) : Bool :=
  matchesBlockedPatterns hostname ||
  (strStartsWith "::1" hostname || strStartsWith "fe80:" hostname ||
   strStartsWith "fc00:" hostname || strStartsWith "fd00:" hostname)

/-- isShortenerDomain of UrlValidator: exact or dot-subdomain match against
SHORTENER_DOMAINS. -/
def isShortenerDomain (hostname : String) : Bool :=
  SHORTENER_DOMAINS.any (fun domain =>
    hostname == domain || strEndsWith ("." ++ domain) hostname)

/-- Parsed URL value as produced by the WHATWG URL parser (Node's URL class):
protocol includes the trailing colon and is lowercase, hostname is the
serialized lowercase host (IPv6 hosts keep their brackets), pathname and
search as given by the corresponding getters. `hasAuthority` records whether
the URL carries a // authority component (drives re-serialization). -/
structure ParsedUrl where
  protocol : String
  hostname : String
  pathname : String
  search : String
  hasAuthority : Bool
  deriving DecidableEq

/-- Characters permitted in a scheme after its first letter. -/
def isSchemeChar (c : Char) : Bool :=
  c.isAlpha || c.isDigit || c == '+' || c == '-' || c == '.'

/-- Splits off the scheme of an absolute URL: a leading letter, further
scheme characters, then a colon; `none` when the input has no such prefix
(the parser throws). -/
def splitScheme (l : List Char) : Option (List Char × List Char) :=
  match l with
  | [] => none
  | c :: rest =>
    if c.isAlpha then
      let body := rest.takeWhile isSchemeChar
      match rest.drop body.length with
      | ':' :: tail => some (c :: body, tail)
      | _ => none
    else none

/-- Characters ending the authority component. -/
def isAuthorityEnd (c : Char) : Bool := c == '/' || c == '?' || c == '#'

/-- Drops a userinfo component: the host part of an authority is the text
after the last @. -/
def stripUserinfo (auth : List Char) : List Char :=
  if auth.contains '@' then
    (auth.reverse.takeWhile (fun c => !(c == '@'))).reverse
  else auth

/-- Extracts the host from a host[:port] component: a bracketed IPv6 host
runs to the closing bracket (missing bracket: the parser throws), otherwise
the host runs to the port colon. -/
def hostOfHostPort (hp : List Char) : Option (List Char) :=
  match hp with
  | '[' :: rest =>
    if rest.contains ']' then
      some ('[' :: rest.takeWhile (fun c => !(c == ']')) ++ [']'])
    else none
  | _ => some (hp.takeWhile (fun c => !(c == ':')))

/-- Model of the WHATWG URL parser (Node's `new URL`) on the URL shapes the
validator receives: scheme, optional //authority (userinfo and port
stripped), path, query. Percent-encoding, dot-segment removal, IDNA and
numeric-host normalization are the identity on the hostnames considered
here; schemes and hostnames are lowercased. `none` models a thrown parse
error (no scheme, or an empty or ill-formed host after //). -/
def parseUrl (s : String) : Option ParsedUrl :=
  match splitScheme s.data with
  | none => none
  | some (scheme, rest) =>
    let protocol := String.mk (scheme.map Char.toLower) ++ ":"
    match rest with
    | '/' :: '/' :: tail =>
      let auth := tail.takeWhile (fun c => !isAuthorityEnd c)
      let after := tail.drop auth.length
      match hostOfHostPort (stripUserinfo auth) with
      | none => none
      | some host =>
        if host.isEmpty then none
        else
          let pathname := after.takeWhile (fun c => !(c == '?' || c == '#'))
          let afterPath := after.drop pathname.length
          let search := match afterPath with
            | '?' :: q => '?' :: q.takeWhile (fun c => !(c == '#'))
            | _ => []
          some ⟨protocol, String.mk (host.map Char.toLower),
            if pathname.isEmpty then "/" else String.mk pathname,
            String.mk search, true⟩
    | _ =>
      let pathname := rest.takeWhile (fun c => !(c == '?' || c == '#'))
      let afterPath := rest.drop pathname.length
      let search := match afterPath with
        | '?' :: q => '?' :: q.takeWhile (fun c => !(c == '#'))
        | _ => []
      some ⟨protocol, "", String.mk pathname, String.mk search, false⟩

/-- Serialization url.toString() of a parsed URL (userinfo and ports do not
occur in the inputs considered). -/
def urlToString (u : ParsedUrl) : String :=
  u.protocol ++ (if u.hasAuthority then "//" ++ u.hostname else "") ++
    u.pathname ++ u.search

/-- ValidationResult of url-validator.ts. -/
structure ValidationResult where
  isValid : Bool
  error : Option String
  code : Option String
  normalizedUrl : Option String
  deriving DecidableEq

/-- Dotted hostname built from four octet strings, the lexical shape of an
IPv4 host as serialized by the URL parser. -/
def dottedHost (a b c d : String) : String :=
  a ++ "." ++ b ++ "." ++ c ++ "." ++ d

/-- JS String.trim, realized on the character lists. -/
def jsTrim (s : String) : String :=
  String.mk (((s.data.dropWhile Char.isWhitespace).reverse.dropWhile
    Char.isWhitespace).reverse)

/-- performSecurityChecks of UrlValidator: data/javascript protocol check,
then the path and query length limits. -/
def performSecurityChecks (url : ParsedUrl) : ValidationResult :=
  if url.protocol = "data:" ∨ url.protocol = "javascript:" then
    ⟨false, some "Data and JavaScript URLs are not allowed",
      some "UNSAFE_PROTOCOL", none⟩
  else if url.pathname.length > 1000 then
    ⟨false, some "URL path is too long", some "PATH_TOO_LONG", none⟩
  else if url.search.length > 1000 then
    ⟨false, some "URL query parameters are too long", some "QUERY_TOO_LONG",
      none⟩
  else ⟨true, none, none, none⟩

/-- Body of UrlValidator.validateUrl after the parse succeeded: protocol
allow-list, blocked hostnames, private or local IP, shortener chaining, then
the additional security checks; on success the re-serialized URL is the
normalized form. -/
def validateParsed (parsedUrl : ParsedUrl) : ValidationResult :=
  if !(ALLOWED_PROTOCOLS.contains parsedUrl.protocol) then
    ⟨false, some ("Protocol " ++ parsedUrl.protocol ++
      " not allowed. Only HTTP and HTTPS are supported"),
      some "INVALID_PROTOCOL", none⟩
  else
    let hostname := strToLower parsedUrl.hostname
    if BLOCKED_HOSTNAMES.contains hostname then
      ⟨false, some "Cannot shorten localhost or invalid addresses",
        some "BLOCKED_HOSTNAME", none⟩
    else if isPrivateOrLocalIP hostname then
      ⟨false, some "Cannot shorten private or local IP addresses",
        some "PRIVATE_IP", none⟩
    else if isShortenerDomain hostname then
      ⟨false, some "Cannot shorten URLs from other URL shortening services",
        some "SHORTENER_CHAIN", none⟩
    else
      let securityCheck := performSecurityChecks parsedUrl
      if securityCheck.isValid = false then securityCheck
      else ⟨true, none, none, some (urlToString parsedUrl)⟩

/-- validateUrl of UrlValidator: length check, empty check, parse, then
validateParsed. -/
def validateUrl (urlString : String) : ValidationResult :=
  if urlString.length > MAX_URL_LENGTH then
    ⟨false, some "URL exceeds maximum length of 2048 characters",
      some "URL_TOO_LONG", none⟩
  else if urlString = "" ∨ (jsTrim urlString).length = 0 then
    ⟨false, some "URL cannot be empty", some "URL_EMPTY", none⟩
  else
    match parseUrl (jsTrim urlString) with
    | none => ⟨false, some "Invalid URL format", some "INVALID_FORMAT", none⟩
    | some parsedUrl => validateParsed parsedUrl

/-! Storage (url-storage.ts) and the submission coordinator -/

/-- Row inserted into the urls table by storeUrl (CreateUrlData; the handler
never passes expiresAt). Option models possibly-undefined fields. -/
structure UrlRecord where
  shortCode : String
  originalUrl : String
  paymentTxHash : Option String
  creatorAddress : Option String
  deriving DecidableEq

/-- Outcome of the INSERT executed through executeQuery: the number of
returned rows, or a raised database error carrying its pg error code and
constraint name. -/
inductive DbOutcome where
  | rows (returned : Nat)
  | raise (code : Option String) (constraint : Option String)
  deriving DecidableEq

/-- Errors thrown by UrlStorageService.storeUrl: UniqueConstraintError or
DatabaseError. -/
inductive StoreError where
  | uniqueConstraint
  | database
  deriving DecidableEq

/-- storeUrl of UrlStorageService: a pg unique violation (code 23505 on the
urls_short_code_key constraint) is rethrown as UniqueConstraintError, any
other raise as DatabaseError; an empty RETURNING set is also a
DatabaseError. -/
def storeUrl (dbResult : DbOutcome) : Except StoreError Unit :=
  match dbResult with
  | .rows n => if n = 0 then .error .database else .ok ()
  | .raise code constraint =>
    if code = some "23505" ∧ constraint = some "urls_short_code_key" then
      .error .uniqueConstraint
    else .error .database

/-- Storage operations issued by the coordinator, in order: the
shortCodeExists queries of the loop and the storeUrl insert. -/
inductive StorageOp where
  | existsQuery (code : String)
  | insert (record : UrlRecord)
  deriving DecidableEq

/-- Payment JSON decoded from the X-PAYMENT header; the handler reads the
fields with optional chaining, so each may be absent. -/
structure PaymentJson where
  txHash : Option String
  creatorAddress : Option String
  amount : Option String
  deriving DecidableEq

/-- HTTP outcome of handleShortenUrl: an error response (status, code field,
error message) or the 200 success response (the shortUrl field is baseUrl
followed by the short code, hence determined by shortCode). -/
inductive ShortenOutcome where
  | failure (status : Nat) (code : String) (error : Option String)
  | success (status : Nat) (shortCode : String) (originalUrl : String)
      (paymentTxHash : String)
  deriving DecidableEq

/-- maxAttempts of the generate-and-check loop in handleShortenUrl. -/
def maxAttempts : Nat := 10

/-- The do-while generate-and-check loop of handleShortenUrl. `gen i` is the
code returned by the i-th generateShortCode call (the handler passes no
existingCodes set, so each call is a single generateRandomCode draw); `ex`
is Storage.shortCodeExists. `attempts` is the counter value before the
iteration; `k` counts how many times the guard `attempts < maxAttempts` can
still come out true, so the loop enters with attempts = 0 and
k = maxAttempts - 1 and the body of the final permitted iteration runs at
k = 0 (its existence check is still issued, as the JS && evaluates it before
the counter comparison). Returns the last generated code, the final counter
and the issued existence queries. -/
def genLoopAux (gen : Nat → String) (ex : String → Bool) :
    Nat → Nat → List StorageOp → String × Nat × List StorageOp
  | attempts, 0, acc => (gen attempts, attempts + 1,
      acc ++ [.existsQuery (gen attempts)])
  | attempts, k + 1, acc =>
    let code := gen attempts
    let acc' := acc ++ [.existsQuery code]
    if ex code then genLoopAux gen ex (attempts + 1) k acc'
    else (code, attempts + 1, acc')

/-- Request as seen by handleShortenUrl: req.body.url and the X-PAYMENT
header. -/
structure ShortenRequest where
  url : Option String
  paymentHeader : Option String
  deriving DecidableEq

/-- handleShortenUrl, the submission coordinator route handler, returning
the HTTP outcome and the ordered Storage operations issued. `decode` models
JSON.parse of the base64-decoded X-PAYMENT header (`none` where the source's
try/catch leaves paymentData null); `gen` and `ex` as in genLoopAux;
`dbInsert` gives the database outcome of the INSERT for the record the
handler builds. A JS falsy url (absent or empty) yields MISSING_URL; every
error thrown after validation (loop exhaustion, storeUrl errors) is caught
by the surrounding try/catch and becomes the 500 INTERNAL_ERROR response. -/
def handleShortenUrl (req : ShortenRequest)
    (decode : String → Option PaymentJson) (gen : Nat → String)
    (ex : String → Bool) (dbInsert : UrlRecord → DbOutcome) :
    ShortenOutcome × List StorageOp :=
  match req.url with
  | none => (.failure 400 "MISSING_URL" (some "URL is required"), [])
  | some url =>
    if url = "" then (.failure 400 "MISSING_URL" (some "URL is required"), [])
    else
      let validationResult := validateUrl url
      if validationResult.isValid = false then
        (.failure 400 "INVALID_URL" validationResult.error, [])
      else
        match req.paymentHeader with
        | none =>
          (.failure 402 "PAYMENT_REQUIRED" (some "Payment required"), [])
        | some h =>
          match decode h with
          | none =>
            (.failure 402 "INVALID_PAYMENT" (some "Invalid payment data"), [])
          | some paymentData =>
            let r := genLoopAux gen ex 0 (maxAttempts - 1) []
            let shortCode := r.1
            let attempts := r.2.1
            let ops := r.2.2
            if maxAttempts ≤ attempts then
              (.failure 500 "INTERNAL_ERROR" (some "Internal server error"),
                ops)
            else
              let record : UrlRecord := ⟨shortCode,
                validationResult.normalizedUrl.getD url,
                paymentData.txHash, paymentData.creatorAddress⟩
              let ops' := ops ++ [.insert record]
              match storeUrl (dbInsert record) with
              | .error _ =>
                (.failure 500 "INTERNAL_ERROR"
                  (some "Internal server error"), ops')
              | .ok _ =>
                (.success 200 shortCode
                  (validationResult.normalizedUrl.getD url)
                  (paymentData.txHash.getD ""), ops')

/-! Generator theorems -/

theorem base62Char_mem (b : Nat) : base62Char b ∈ BASE62_CHARS.data :=
  List.get_mem _ _ _

theorem generateRandomCode_data (bytes : List Nat) :
    (generateRandomCode bytes).data = bytes.map base62Char := rfl

theorem contains_of_mem {c : Char} {l : List Char} (h : c ∈ l) :
    l.contains c = true := by
  simp [List.contains, List.elem_iff]
  exact h

theorem mem_of_contains {c : Char} {l : List Char} (h : l.contains c = true) :
    c ∈ l := by
  simpa [List.contains, List.elem_iff] using h

/-- C9: every generator output has length exactly 8 with all characters in
the 62-symbol alphabet; isValidShortCode accepts every generator output and
rejects any string of wrong length or containing a character outside the
alphabet. -/
theorem generator_alphabet_closure :
    (∀ bytes : List Nat, bytes.length = CODE_LENGTH →
      (generateRandomCode bytes).length = 8 ∧
      ∀ c ∈ (generateRandomCode bytes).data, c ∈ BASE62_CHARS.data) ∧
    (∀ bytes : List Nat, bytes.length = CODE_LENGTH →
      isValidShortCode (generateRandomCode bytes) = true) ∧
    (∀ s : String, s.length ≠ 8 → isValidShortCode s = false) ∧
    (∀ s : String, ∀ c ∈ s.data, c ∉ BASE62_CHARS.data →
      isValidShortCode s = false) := by
  have hCL : CODE_LENGTH = 8 := rfl
  have hlen : ∀ bytes : List Nat, (generateRandomCode bytes).length =
      bytes.length := by
    intro bytes
    show (bytes.map base62Char).length = bytes.length
    simp
  have hmem : ∀ (bytes : List Nat), ∀ c ∈ (generateRandomCode bytes).data,
      c ∈ BASE62_CHARS.data := by
    intro bytes c hc
    rw [generateRandomCode_data] at hc
    obtain ⟨b, _, rfl⟩ := List.mem_map.mp hc
    exact base62Char_mem b
  refine ⟨fun bytes h => ⟨by rw [hlen, h, hCL], hmem bytes⟩, ?_, ?_, ?_⟩
  · intro bytes h
    have h8 : (generateRandomCode bytes).length = 8 := by
      rw [hlen, h, hCL]
    simp [isValidShortCode, h8, CODE_LENGTH]
    intro c hc
    exact hmem bytes c hc
  · intro s hs
    simp [isValidShortCode, hs, CODE_LENGTH]
  · intro s c hc hnc
    by_cases hl : s.length = 8
    · simp only [isValidShortCode, CODE_LENGTH, hl]
      simp only [ne_eq, not_true_eq_false, if_false]
      rw [List.all_eq_false]
      exact ⟨c, hc, by simpa using fun h => hnc (mem_of_contains h)⟩
    · simp [isValidShortCode, hl, CODE_LENGTH]

/-- C9 witness: the theorem applied to the byte list [0,...,7], to "abc"
(wrong length) and to "!bcdefgh" (character outside the alphabet). -/
theorem generator_alphabet_closure_witness :
    (generateRandomCode [0, 1, 2, 3, 4, 5, 6, 7]).length = 8 ∧
    isValidShortCode (generateRandomCode [0, 1, 2, 3, 4, 5, 6, 7]) = true ∧
    isValidShortCode "abc" = false ∧
    isValidShortCode "!bcdefgh" = false :=
  ⟨(generator_alphabet_closure.1 _ (by decide)).1,
   generator_alphabet_closure.2.1 _ (by decide),
   generator_alphabet_closure.2.2.1 "abc" (by decide),
   generator_alphabet_closure.2.2.2 "!bcdefgh" '!' (by decide) (by decide)⟩

/-! Payment verifier theorems -/

theorem txHashFormat_ne_empty {s : String} (h : isTxHashFormat s = true) :
    s ≠ "" := by
  intro he
  subst he
  exact absurd h (by decide)

theorem creatorAddressFormat_ne_empty {s : String}
    (h : isCreatorAddressFormat s = true) : s ≠ "" := by
  intro he
  subst he
  exact absurd h (by decide)

/-- C8: with all fields present, the configured network and asset, and
well-formed transaction hash and payer address, verification accepts the
amounts minAmount (1000) and maxAmount (10000) inclusively, rejects 999
with the amount-too-low failure and 10001 with the amount-too-high
failure. -/
theorem verifyPayment_inclusive_bounds (tx addr : String) (now : Nat)
    (htx : isTxHashFormat tx = true)
    (haddr : isCreatorAddressFormat addr = true) :
    (verifyPayment (some ⟨tx, addr, "1000", USDC_CONTRACT_ADDRESS,
      "base-sepolia"⟩) now).isValid = true ∧
    (verifyPayment (some ⟨tx, addr, "10000", USDC_CONTRACT_ADDRESS,
      "base-sepolia"⟩) now).isValid = true ∧
    verifyPayment (some ⟨tx, addr, "999", USDC_CONTRACT_ADDRESS,
      "base-sepolia"⟩) now = ⟨false, some .amountTooLow, none⟩ ∧
    verifyPayment (some ⟨tx, addr, "10001", USDC_CONTRACT_ADDRESS,
      "base-sepolia"⟩) now = ⟨false, some .amountTooHigh, none⟩ := by
  have h1 := txHashFormat_ne_empty htx
  have h2 := creatorAddressFormat_ne_empty haddr
  have e1 : jsLt (jsParseInt "1000") (jsParseInt minAmountRequired) = false :=
    by decide
  have e2 : jsGt (jsParseInt "1000") (jsParseInt maxAmountRequired) = false :=
    by decide
  have e3 : jsLt (jsParseInt "10000") (jsParseInt minAmountRequired) = false :=
    by decide
  have e4 : jsGt (jsParseInt "10000") (jsParseInt maxAmountRequired) = false :=
    by decide
  have e5 : jsLt (jsParseInt "999") (jsParseInt minAmountRequired) = true :=
    by decide
  have e6 : jsLt (jsParseInt "10001") (jsParseInt minAmountRequired) = false :=
    by decide
  have e7 : jsGt (jsParseInt "10001") (jsParseInt maxAmountRequired) = true :=
    by decide
  refine ⟨?_, ?_, ?_, ?_⟩ <;>
    simp [verifyPayment, h1, h2, htx, haddr, REQUIRED_NETWORK,
      USDC_CONTRACT_ADDRESS, e1, e2, e3, e4, e5, e6, e7]

/-- C8 witness: the bounds theorem applied at a concrete well-formed
transaction hash and creator address. -/
theorem verifyPayment_inclusive_bounds_witness :
    (verifyPayment (some ⟨"0xaaaaaaaaaaaaaaaaaaaaaaaaaaaaaaaaaaaaaaaaaaaaaaaaaaaaaaaaaaaaaaaa",
      "0xbbbbbbbbbbbbbbbbbbbbbbbbbbbbbbbbbbbbbbbb", "1000",
      USDC_CONTRACT_ADDRESS, "base-sepolia"⟩) 0).isValid = true :=
  (verifyPayment_inclusive_bounds
    "0xaaaaaaaaaaaaaaaaaaaaaaaaaaaaaaaaaaaaaaaaaaaaaaaaaaaaaaaaaaaaaaaa"
    "0xbbbbbbbbbbbbbbbbbbbbbbbbbbbbbbbbbbbbbbbb" 0
    (by decide) (by decide)).1

/-- C10: a payment claim whose amount string has no leading digits parses to
NaN, both range comparisons are false, and verification succeeds when the
other fields pass their checks: the verifier does not reject non-numeric
amounts. -/
theorem verifyPayment_accepts_nan_amount (tx addr amount : String) (now : Nat)
    (htx : isTxHashFormat tx = true)
    (haddr : isCreatorAddressFormat addr = true)
    (hne : amount ≠ "")
    (hnan : jsParseInt amount = none) :
    verifyPayment (some ⟨tx, addr, amount, USDC_CONTRACT_ADDRESS,
      "base-sepolia"⟩) now =
      ⟨true, none, some ⟨tx, addr, amount, USDC_CONTRACT_ADDRESS,
        "base-sepolia", now⟩⟩ := by
  have h1 := txHashFormat_ne_empty htx
  have h2 := creatorAddressFormat_ne_empty haddr
  simp [verifyPayment, h1, h2, htx, haddr, REQUIRED_NETWORK,
    USDC_CONTRACT_ADDRESS, hne, hnan, jsLt, jsGt]

/-- C10 witness: the NaN-amount theorem applied at amount "abc" with concrete
well-formed transaction hash and creator address. -/
theorem verifyPayment_accepts_nan_amount_witness :
    verifyPayment (some ⟨"0xaaaaaaaaaaaaaaaaaaaaaaaaaaaaaaaaaaaaaaaaaaaaaaaaaaaaaaaaaaaaaaaa",
      "0xbbbbbbbbbbbbbbbbbbbbbbbbbbbbbbbbbbbbbbbb", "abc",
      USDC_CONTRACT_ADDRESS, "base-sepolia"⟩) 7 =
      ⟨true, none, some ⟨"0xaaaaaaaaaaaaaaaaaaaaaaaaaaaaaaaaaaaaaaaaaaaaaaaaaaaaaaaaaaaaaaaa",
        "0xbbbbbbbbbbbbbbbbbbbbbbbbbbbbbbbbbbbbbbbb", "abc",
        USDC_CONTRACT_ADDRESS, "base-sepolia", 7⟩⟩ :=
  verifyPayment_accepts_nan_amount
    "0xaaaaaaaaaaaaaaaaaaaaaaaaaaaaaaaaaaaaaaaaaaaaaaaaaaaaaaaaaaaaaaaa"
    "0xbbbbbbbbbbbbbbbbbbbbbbbbbbbbbbbbbbbbbbbb" "abc" 7
    (by decide) (by decide) (by decide) (by decide)

/-! Validator theorems -/

theorem toLower_eq_self_of_isDigit {c : Char} (h : c.isDigit = true) :
    c.toLower = c := by
  simp [Char.isDigit] at h
  have h2 : c.val.toNat ≤ 57 :=
    UInt32.toNat_le_of_le (by decide) h.2
  simp [Char.toLower, Char.toNat]
  intro h1
  omega

theorem map_toLower_digits_dots {l : List Char}
    (h : ∀ ch ∈ l, ch.isDigit = true ∨ ch = '.') :
    l.map Char.toLower = l := by
  induction l with
  | nil => rfl
  | cons c t ih =>
    have hc : c.toLower = c := by
      rcases h c (by simp) with hd | he
      · exact toLower_eq_self_of_isDigit hd
      · rw [he]; decide
    simp [hc, ih (fun x hx => h x (by simp [hx]))]

theorem strToLower_dottedHost {oa ob oc od : String}
    (ha : ∀ ch ∈ oa.data, ch.isDigit = true)
    (hb : ∀ ch ∈ ob.data, ch.isDigit = true)
    (hc : ∀ ch ∈ oc.data, ch.isDigit = true)
    (hd : ∀ ch ∈ od.data, ch.isDigit = true) :
    strToLower (dottedHost oa ob oc od) = dottedHost oa ob oc od := by
  have hall : ∀ ch ∈ (dottedHost oa ob oc od).data,
      ch.isDigit = true ∨ ch = '.' := by
    simp only [dottedHost, String.data_append, List.mem_append]
    intro ch hch
    rcases hch with ((((((h|h)|h)|h)|h)|h)|h)
    · exact Or.inl (ha ch h)
    · exact Or.inr (by simpa using h)
    · exact Or.inl (hb ch h)
    · exact Or.inr (by simpa using h)
    · exact Or.inl (hc ch h)
    · exact Or.inr (by simpa using h)
    · exact Or.inl (hd ch h)
  show String.mk ((dottedHost oa ob oc od).data.map Char.toLower) = _
  rw [map_toLower_digits_dots hall]

theorem strStartsWith_of_data_eq {p s : String} {r : List Char}
    (h : s.data = p.data ++ r) : strStartsWith p s = true := by
  simp [strStartsWith, h]

theorem ne_of_startsWith_diff {p s t : String}
    (hs : strStartsWith p s = true) (ht : strStartsWith p t = false) :
    s ≠ t := by
  intro h
  rw [h, ht] at hs
  cases hs

theorem validateParsed_rejects_private (proto host path search : String)
    (auth : Bool)
    (hp : proto ∈ ALLOWED_PROTOCOLS)
    (hb : strToLower host ∉ BLOCKED_HOSTNAMES)
    (hpriv : isPrivateOrLocalIP (strToLower host) = true) :
    validateParsed ⟨proto, host, path, search, auth⟩ =
      ⟨false, some "Cannot shorten private or local IP addresses",
        some "PRIVATE_IP", none⟩ := by
  simp [validateParsed, hp, hb, hpriv]

theorem validateParsed_rejects_blocked (proto host path search : String)
    (auth : Bool)
    (hp : proto ∈ ALLOWED_PROTOCOLS)
    (hb : strToLower host ∈ BLOCKED_HOSTNAMES) :
    validateParsed ⟨proto, host, path, search, auth⟩ =
      ⟨false, some "Cannot shorten localhost or invalid addresses",
        some "BLOCKED_HOSTNAME", none⟩ := by
  simp [validateParsed, hp, hb]

/-- C5 counterexample: validateUrl applied to javascript:alert(1) reports
INVALID_PROTOCOL, not UNSAFE_PROTOCOL; the scheme allow-list check runs
before performSecurityChecks ever could. -/
theorem javascript_url_not_unsafe_protocol :
    (validateUrl "javascript:alert(1)").code = some "INVALID_PROTOCOL" ∧
    (validateUrl "javascript:alert(1)").code ≠ some "UNSAFE_PROTOCOL" := by
  decide

/-- C5 amended: validateUrl rejects javascript:alert(1) with reason
INVALID_PROTOCOL (the allow-list check precedes the UNSAFE_PROTOCOL branch,
unreachable for this input), and the coordinator issues no Storage operation
for such a submission, whatever the payment header, decoder, generator and
database behave like. -/
theorem javascript_url_rejected_invalid_protocol :
    validateUrl "javascript:alert(1)" =
      ⟨false, some
        "Protocol javascript: not allowed. Only HTTP and HTTPS are supported",
        some "INVALID_PROTOCOL", none⟩ ∧
    ∀ (ph : Option String) (decode : String → Option PaymentJson)
      (gen : Nat → String) (ex : String → Bool)
      (dbInsert : UrlRecord → DbOutcome),
      handleShortenUrl ⟨some "javascript:alert(1)", ph⟩ decode gen ex
        dbInsert =
        (.failure 400 "INVALID_URL" (some
          "Protocol javascript: not allowed. Only HTTP and HTTPS are supported"),
         []) := by
  refine ⟨by decide, ?_⟩
  intro ph decode gen ex dbInsert
  have hv : validateUrl "javascript:alert(1)" =
      ⟨false, some
        "Protocol javascript: not allowed. Only HTTP and HTTPS are supported",
        some "INVALID_PROTOCOL", none⟩ := by decide
  simp [handleShortenUrl, hv]

/-- C6 counterexample: the host 127.0.0.1 under the ftp scheme is rejected
with INVALID_PROTOCOL, not PRIVATE_IP or BLOCKED_HOSTNAME: the rejection
reason is not independent of the scheme. -/
theorem private_host_nonhttp_scheme_counterexample :
    (validateUrl "ftp://127.0.0.1/").code = some "INVALID_PROTOCOL" ∧
    (validateUrl "ftp://127.0.0.1/").code ≠ some "PRIVATE_IP" ∧
    (validateUrl "ftp://127.0.0.1/").code ≠ some "BLOCKED_HOSTNAME" := by
  decide

/-- C6 amended: for the allow-listed schemes http and https, any URL with
host 127.0.0.1, 10.1.2.3 or 192.168.0.5 is rejected with PRIVATE_IP and any
URL with hostname localhost is rejected with BLOCKED_HOSTNAME, whatever the
path and query; under any other scheme the URL is still rejected, but with
INVALID_PROTOCOL by the earlier allow-list check. -/
theorem private_hosts_rejected_on_http_schemes
    (proto path search host : String) (auth : Bool)
    (hp : proto = "http:" ∨ proto = "https:")
    (hh : host = "127.0.0.1" ∨ host = "10.1.2.3" ∨ host = "192.168.0.5") :
    validateParsed ⟨proto, host, path, search, auth⟩ =
      ⟨false, some "Cannot shorten private or local IP addresses",
        some "PRIVATE_IP", none⟩ ∧
    validateParsed ⟨proto, "localhost", path, search, auth⟩ =
      ⟨false, some "Cannot shorten localhost or invalid addresses",
        some "BLOCKED_HOSTNAME", none⟩ ∧
    (validateUrl "http://127.0.0.1/").code = some "PRIVATE_IP" ∧
    (validateUrl "https://10.1.2.3/a?b=1").code = some "PRIVATE_IP" ∧
    (validateUrl "http://192.168.0.5/").code = some "PRIVATE_IP" ∧
    (validateUrl "https://localhost/x").code = some "BLOCKED_HOSTNAME" := by
  refine ⟨?_, ?_, by decide, by decide, by decide, by decide⟩
  · rcases hp with rfl | rfl <;> rcases hh with rfl | rfl | rfl <;>
      exact validateParsed_rejects_private _ _ _ _ _ (by decide) (by decide)
        (by decide)
  · rcases hp with rfl | rfl <;>
      exact validateParsed_rejects_blocked _ _ _ _ _ (by decide) (by decide)

/-- C6 witness: the amended theorem applied at the http scheme and host
127.0.0.1 with path / and empty query. -/
theorem private_hosts_rejected_witness :
    validateParsed ⟨"http:", "127.0.0.1", "/", "", true⟩ =
      ⟨false, some "Cannot shorten private or local IP addresses",
        some "PRIVATE_IP", none⟩ :=
  (private_hosts_rejected_on_http_schemes "http:" "/" "" "127.0.0.1" true
    (Or.inl rfl) (Or.inl rfl)).1

/-- C7 counterexample: fd12::1 lies in fc00::/7, yet the URL
http://[fd12::1]/ passes validation: the IPv6 checks test only the textual
hostname prefixes ::1, fe80:, fc00: and fd00:, which never match the
bracketed hostname serialization of an IPv6 URL. -/
theorem ipv6_unique_local_accepted :
    (validateUrl "http://[fd12::1]/").isValid = true ∧
    (validateUrl "http://[fd12::1]/").code = none ∧
    isPrivateOrLocalIP "fd00::1" = true ∧
    (validateUrl "http://[fd00::1]/").isValid = true := by
  decide

/-- C7 amended: for http and https URLs the lexical check fully covers the
listed IPv4 ranges: any dotted-decimal hostname whose leading octets match
127, 10, 172.16-31, 192.168, 169.254 or 0 is rejected with PRIVATE_IP,
whatever the remaining octets, path and query (0.0.0.0 itself is caught
earlier as BLOCKED_HOSTNAME); the IPv6 side of the check matches only the
textual prefixes ::1, fe80:, fc00: and fd00: and never fires on bracketed
IPv6 URL hostnames. -/
theorem ipv4_ranges_rejected_lexically
    (oa ob oc od proto path search : String) (auth : Bool)
    (hb : ∀ ch ∈ ob.data, ch.isDigit = true)
    (hc : ∀ ch ∈ oc.data, ch.isDigit = true)
    (hd : ∀ ch ∈ od.data, ch.isDigit = true)
    (hr : oa = "127" ∨ oa = "10" ∨ (oa = "172" ∧ ob ∈ oct172) ∨
      (oa = "192" ∧ ob = "168") ∨ (oa = "169" ∧ ob = "254") ∨ oa = "0")
    (hne : dottedHost oa ob oc od ≠ "0.0.0.0")
    (hp : proto = "http:" ∨ proto = "https:") :
    validateParsed ⟨proto, dottedHost oa ob oc od, path, search, auth⟩ =
      ⟨false, some "Cannot shorten private or local IP addresses",
        some "PRIVATE_IP", none⟩ := by
  have hprot : proto ∈ ALLOWED_PROTOCOLS := by
    rcases hp with rfl | rfl <;> decide
  have hpre : ∃ p : String, strStartsWith p (dottedHost oa ob oc od) = true ∧
      matchesBlockedPatterns (dottedHost oa ob oc od) = true ∧
      strStartsWith p "localhost" = false ∧ strStartsWith p "::1" = false ∧
      strStartsWith p "::" = false ∧
      (strStartsWith p "0.0.0.0" = false ∨ oa = "0") := by
    rcases hr with rfl | rfl | ⟨rfl, hob⟩ | ⟨rfl, rfl⟩ | ⟨rfl, rfl⟩ | rfl
    · have hx : strStartsWith "127." (dottedHost "127" ob oc od) = true := by
        apply strStartsWith_of_data_eq
          (r := ob.data ++ '.' :: (oc.data ++ '.' :: od.data))
        simp [dottedHost]
      exact ⟨"127.", hx, by simp [matchesBlockedPatterns, hx], by decide,
        by decide, by decide, Or.inl (by decide)⟩
    · have hx : strStartsWith "10." (dottedHost "10" ob oc od) = true := by
        apply strStartsWith_of_data_eq
          (r := ob.data ++ '.' :: (oc.data ++ '.' :: od.data))
        simp [dottedHost]
      exact ⟨"10.", hx, by simp [matchesBlockedPatterns, hx], by decide,
        by decide, by decide, Or.inl (by decide)⟩
    · have hx : strStartsWith "172." (dottedHost "172" ob oc od) = true := by
        apply strStartsWith_of_data_eq
          (r := ob.data ++ '.' :: (oc.data ++ '.' :: od.data))
        simp [dottedHost]
      have hmatch : strStartsWith ("172." ++ ob ++ ".")
          (dottedHost "172" ob oc od) = true := by
        apply strStartsWith_of_data_eq (r := oc.data ++ '.' :: od.data)
        simp [dottedHost]
      have hany : oct172.any (fun t => strStartsWith ("172." ++ t ++ ".")
          (dottedHost "172" ob oc od)) = true :=
        List.any_eq_true.mpr ⟨ob, hob, hmatch⟩
      exact ⟨"172.", hx, by simp [matchesBlockedPatterns, hany], by decide,
        by decide, by decide, Or.inl (by decide)⟩
    · have hx : strStartsWith "192.168." (dottedHost "192" "168" oc od)
          = true := by
        apply strStartsWith_of_data_eq (r := oc.data ++ '.' :: od.data)
        simp [dottedHost]
      exact ⟨"192.168.", hx, by simp [matchesBlockedPatterns, hx], by decide,
        by decide, by decide, Or.inl (by decide)⟩
    · have hx : strStartsWith "169.254." (dottedHost "169" "254" oc od)
          = true := by
        apply strStartsWith_of_data_eq (r := oc.data ++ '.' :: od.data)
        simp [dottedHost]
      exact ⟨"169.254.", hx, by simp [matchesBlockedPatterns, hx], by decide,
        by decide, by decide, Or.inl (by decide)⟩
    · have hx : strStartsWith "0." (dottedHost "0" ob oc od) = true := by
        apply strStartsWith_of_data_eq
          (r := ob.data ++ '.' :: (oc.data ++ '.' :: od.data))
        simp [dottedHost]
      exact ⟨"0.", hx, by simp [matchesBlockedPatterns, hx], by decide,
        by decide, by decide, Or.inr rfl⟩
  obtain ⟨p, hps, hbp, hl, h1, h2, h0⟩ := hpre
  have ha : ∀ ch ∈ oa.data, ch.isDigit = true := by
    rcases hr with rfl | rfl | ⟨rfl, _⟩ | ⟨rfl, _⟩ | ⟨rfl, _⟩ | rfl <;> decide
  have hlow := strToLower_dottedHost ha hb hc hd
  apply validateParsed_rejects_private
  · exact hprot
  · show strToLower (dottedHost oa ob oc od) ∉ BLOCKED_HOSTNAMES
    rw [hlow]
    intro hm
    simp [BLOCKED_HOSTNAMES] at hm
    rcases hm with h | h | h | h
    · exact ne_of_startsWith_diff hps hl h
    · rcases h0 with hf | _
      · exact ne_of_startsWith_diff hps hf h
      · exact hne h
    · exact ne_of_startsWith_diff hps h1 h
    · exact ne_of_startsWith_diff hps h2 h
  · show isPrivateOrLocalIP (strToLower (dottedHost oa ob oc od)) = true
    rw [hlow]
    simp [isPrivateOrLocalIP, hbp]

/-- C7 witness: the amended theorem applied at the 10.0.0.0/8 address
10.1.2.3 under the http scheme. -/
theorem ipv4_ranges_rejected_lexically_witness :
    validateParsed ⟨"http:", dottedHost "10" "1" "2" "3", "/", "", true⟩ =
      ⟨false, some "Cannot shorten private or local IP addresses",
        some "PRIVATE_IP", none⟩ :=
  ipv4_ranges_rejected_lexically "10" "1" "2" "3" "http:" "/" "" true
    (by decide) (by decide) (by decide) (Or.inr (Or.inl rfl)) (by decide)
    (Or.inl rfl)

/-! Coordinator theorems -/

theorem genLoopAux_first_fresh (gen : Nat → String) (ex : String → Bool)
    (acc : List StorageOp) (hex : ex (gen 0) = false) :
    genLoopAux gen ex 0 9 acc = (gen 0, 1, acc ++ [.existsQuery (gen 0)]) := by
  show genLoopAux gen ex 0 (8 + 1) acc = _
  simp [genLoopAux, hex]

/-- C1: a tenth-attempt fresh candidate is thrown away. With the first nine
generated candidates existing in Storage and the tenth one fresh, the
coordinator still terminates with the exhaustion error (surfaced as the 500
INTERNAL_ERROR response) after issuing exactly the ten existence queries and
no insert: the post-loop check fires on the counter value alone, so
exhaustion occurs iff the first nine candidates exist, and a candidate found
non-existing on the tenth attempt is reported as exhaustion, not selected. -/
theorem exhaustion_despite_fresh_tenth_candidate :
    (fun s => (["0", "1", "2", "3", "4", "5", "6", "7", "8"] :
      List String).contains s) "9" = false ∧
    handleShortenUrl ⟨some "https://example.com/page", some "ph"⟩
      (fun _ => some ⟨some "0xtx", some "0xaddr", some "1000"⟩)
      (fun i => toString i)
      (fun s => (["0", "1", "2", "3", "4", "5", "6", "7", "8"] :
        List String).contains s)
      (fun _ => .rows 1) =
    (.failure 500 "INTERNAL_ERROR" (some "Internal server error"),
     [.existsQuery "0", .existsQuery "1", .existsQuery "2", .existsQuery "3",
      .existsQuery "4", .existsQuery "5", .existsQuery "6", .existsQuery "7",
      .existsQuery "8", .existsQuery "9"]) := by
  decide

/-- C2 counterexample: with the first candidate fresh at the existence check
but the insert failing with the pg unique violation on urls_short_code_key,
the coordinator answers 500 INTERNAL_ERROR after a single existence query
and a single insert: the loop is not re-entered and the request fails. -/
theorem unique_violation_fails_request_counterexample :
    handleShortenUrl ⟨some "https://example.com/page", some "ph"⟩
      (fun _ => some ⟨some "0xtx", some "0xaddr", some "1000"⟩)
      (fun _ => "AAAAAAAA") (fun _ => false)
      (fun _ => .raise (some "23505") (some "urls_short_code_key")) =
    (.failure 500 "INTERNAL_ERROR" (some "Internal server error"),
     [.existsQuery "AAAAAAAA",
      .insert ⟨"AAAAAAAA", "https://example.com/page", some "0xtx",
        some "0xaddr"⟩]) := by
  decide

/-- C2 amended: a uniqueness violation surfaced by Storage at the insert is
not retried: storeUrl rethrows it as UniqueConstraintError, which no handler
code catches specifically, so the outer catch converts it into the 500
INTERNAL_ERROR failure after exactly one existence query and one insert. -/
theorem unique_violation_not_retried (u ph : String)
    (decode : String → Option PaymentJson) (gen : Nat → String)
    (ex : String → Bool) (dbInsert : UrlRecord → DbOutcome)
    (pj : PaymentJson)
    (hu : u ≠ "")
    (hv : (validateUrl u).isValid = true)
    (hdec : decode ph = some pj)
    (hex : ex (gen 0) = false)
    (hins : dbInsert ⟨gen 0, (validateUrl u).normalizedUrl.getD u, pj.txHash,
      pj.creatorAddress⟩ = .raise (some "23505")
        (some "urls_short_code_key")) :
    handleShortenUrl ⟨some u, some ph⟩ decode gen ex dbInsert =
      (.failure 500 "INTERNAL_ERROR" (some "Internal server error"),
       [.existsQuery (gen 0),
        .insert ⟨gen 0, (validateUrl u).normalizedUrl.getD u, pj.txHash,
          pj.creatorAddress⟩]) := by
  simp [handleShortenUrl, hu, hv, hdec, maxAttempts,
    genLoopAux_first_fresh gen ex [] hex, hins, storeUrl]

/-- C2 witness: the no-retry theorem applied at concrete oracles whose
insert always raises the unique violation. -/
theorem unique_violation_not_retried_witness :
    handleShortenUrl ⟨some "https://example.com/page", some "h"⟩
      (fun _ => some ⟨some "0xt", some "0xc", some "2000"⟩)
      (fun _ => "BBBBBBBB") (fun _ => false)
      (fun _ => .raise (some "23505") (some "urls_short_code_key")) =
      (.failure 500 "INTERNAL_ERROR" (some "Internal server error"),
       [.existsQuery "BBBBBBBB",
        .insert ⟨"BBBBBBBB", "https://example.com/page", some "0xt",
          some "0xc"⟩]) :=
  unique_violation_not_retried "https://example.com/page" "h"
    (fun _ => some ⟨some "0xt", some "0xc", some "2000"⟩)
    (fun _ => "BBBBBBBB") (fun _ => false)
    (fun _ => .raise (some "23505") (some "urls_short_code_key"))
    ⟨some "0xt", some "0xc", some "2000"⟩
    (by decide) (by decide) rfl rfl rfl

/-- C3: a submission with a valid URL but no X-PAYMENT header terminates
with the 402 PAYMENT_REQUIRED failure and issues no Storage operation at
all; the result does not depend on the generator, the existence oracle or
the database, so no code generation or persistence is reached. -/
theorem payment_required_before_storage (u : String)
    (decode : String → Option PaymentJson) (gen : Nat → String)
    (ex : String → Bool) (dbInsert : UrlRecord → DbOutcome)
    (hu : u ≠ "")
    (hv : (validateUrl u).isValid = true) :
    handleShortenUrl ⟨some u, none⟩ decode gen ex dbInsert =
      (.failure 402 "PAYMENT_REQUIRED" (some "Payment required"), []) := by
  simp [handleShortenUrl, hu, hv]

/-- C3 witness: the theorem applied at a concrete valid URL. -/
theorem payment_required_before_storage_witness :
    handleShortenUrl ⟨some "https://example.com/page", none⟩
      (fun _ => none) (fun _ => "AAAAAAAA") (fun _ => false)
      (fun _ => .rows 1) =
      (.failure 402 "PAYMENT_REQUIRED" (some "Payment required"), []) :=
  payment_required_before_storage "https://example.com/page"
    (fun _ => none) (fun _ => "AAAAAAAA") (fun _ => false) (fun _ => .rows 1)
    (by decide) (by decide)

/-- C4 counterexample: for the input mailto:x@y.z the validator reports the
specific reason code INVALID_PROTOCOL, but the failure returned to the
caller carries the collapsed generic code INVALID_URL. -/
theorem validator_reason_code_not_propagated :
    (validateUrl "mailto:x@y.z").code = some "INVALID_PROTOCOL" ∧
    (handleShortenUrl ⟨some "mailto:x@y.z", none⟩ (fun _ => none)
      (fun _ => "") (fun _ => false) (fun _ => .rows 1)).1 =
      .failure 400 "INVALID_URL"
        (some "Protocol mailto: not allowed. Only HTTP and HTTPS are supported") ∧
    "INVALID_URL" ≠ "INVALID_PROTOCOL" := by
  decide

/-- C4 amended: on any validation failure the coordinator returns the 400
failure immediately, carrying the validator's human-readable message but the
collapsed generic machine-readable code INVALID_URL instead of the
validator's specific reason code; no retry and no Storage operation is
performed. -/
theorem validation_failure_collapsed_generic (u : String) (ph : Option String)
    (decode : String → Option PaymentJson) (gen : Nat → String)
    (ex : String → Bool) (dbInsert : UrlRecord → DbOutcome)
    (hu : u ≠ "") (hv : (validateUrl u).isValid = false) :
    handleShortenUrl ⟨some u, ph⟩ decode gen ex dbInsert =
      (.failure 400 "INVALID_URL" (validateUrl u).error, []) := by
  simp [handleShortenUrl, hu, hv]

/-- C4 witness: the collapse theorem applied at a URL rejected for its
scheme. -/
theorem validation_failure_collapsed_generic_witness :
    handleShortenUrl ⟨some "ftp://example.org/", none⟩ (fun _ => none)
      (fun _ => "") (fun _ => false) (fun _ => .rows 1) =
      (.failure 400 "INVALID_URL"
        (validateUrl "ftp://example.org/").error, []) :=
  validation_failure_collapsed_generic "ftp://example.org/" none
    (fun _ => none) (fun _ => "") (fun _ => false) (fun _ => .rows 1)
    (by decide) (by decide)

end X402
